import Mathlib

/-!
Verification development for the MwalimuAi quiz subsystem.

Shallow embedding of the quiz session lifecycle and answer grading code:
* the atomic implementation (`createQuizSession`, `getActiveQuizSession`,
  `parseQuizAnswers`, `gradeQuizAnswers`, `generateQuiz` fallback),
* the incremental implementation (`startQuiz` question parsing, `answerQuiz`).

JavaScript strings are modelled as Lean `String` (a list of characters);
JavaScript numbers appearing here are integers (timestamps in milliseconds,
counts) except the percentage computation, whose binary64 division and
multiplication are modelled exactly: each operation's result is the
nearest IEEE-754 double, represented as a rational (`roundToFloat`).
String helper functions from JS (`toUpperCase`,
`toLowerCase`, `trim`, `split`) are re-defined structurally on the
character-list model so that every definition evaluates in the kernel.
-/

namespace MwalimuAi

/-- Models JS `String.prototype.toUpperCase` (character-wise upper-casing,
which is all the ASCII inputs of this program need). -/
def jsToUpper (s : String) : String := String.mk (s.data.map Char.toUpper)

/-- Models JS `String.prototype.toLowerCase` (character-wise lower-casing). -/
def jsToLower (s : String) : String := String.mk (s.data.map Char.toLower)

/-- Models JS `String.prototype.trim`: drop leading and trailing whitespace. -/
def jsTrim (s : String) : String :=
  String.mk (((s.data.dropWhile Char.isWhitespace).reverse.dropWhile Char.isWhitespace).reverse)

/-- The fixed answer alphabet of the quiz code: the character class `[A-D]`. -/
def isAnswerLetter (c : Char) : Bool := c == 'A' || c == 'B' || c == 'C' || c == 'D'

/-- The letters captured by the global regex `/\d+([A-D])/g` of
`parseQuizAnswers` (pattern 1, the numbered form `1A 2C 3B`), in
left-to-right order.  A match of that regex is a maximal digit run whose
immediately following character is in `[A-D]` (the greedy `\d+` cannot
backtrack into a successful `[A-D]`), so the captured letters are exactly
the letters standing immediately after a digit; scanning resumes after
each captured letter. -/
def pattern1Go : Char → List Char → List Char
  | _, [] => []
  | prev, c :: rest =>
    if prev.isDigit && isAnswerLetter c then c :: pattern1Go c rest
    else pattern1Go c rest

/-- See `pattern1Go`: a letter is captured exactly when the previous
character is a digit.  The regex engine resumes scanning after a captured
letter; since a captured letter is never a digit, the un-skipped scan of
`pattern1Go` examines the same pairs and captures the same letters. -/
def pattern1Letters : List Char → List Char
  | [] => []
  | c :: rest => pattern1Go c rest

/-- Embedding of `parseQuizAnswers` (src/unnamed/part_000, lines 266-284):
upper-case and trim the message; if the numbered pattern `/\d+([A-D])/g`
has matches, return its captured letters; otherwise collect every `[A-D]`
character (`/[A-D]/g`) and return them when there are at least two;
otherwise return the empty list. -/
def parseQuizAnswers (message : String) : List String :=
  let msg := jsTrim (jsToUpper message)
  let chars := msg.data
  let m1 := pattern1Letters chars
  if m1.length > 0 then m1.map Char.toString
  else
    let m2 := chars.filter isAnswerLetter
    if m2.length ≥ 2 then m2.map Char.toString else []

example : parseQuizAnswers "1A 2C 3B" = ["A", "C", "B"] := by decide
example : parseQuizAnswers "A C B" = ["A", "C", "B"] := by decide
example : parseQuizAnswers "a, c, b" = ["A", "C", "B"] := by decide
example : parseQuizAnswers "banana" = ["B", "A", "A", "A"] := by decide

/-- One quiz session of the atomic implementation, as stored in the
`quizSessions` object of src/unnamed/part_000 (lines 240-249).
Timestamps are `Date.now()` milliseconds, modelled as `Nat`. -/
structure QuizSession where
  subject : String
  quizText : String
  correctAnswers : List String
  createdAt : Nat
  expiresAt : Nat
deriving DecidableEq

/-- The in-memory session store `quizSessions`, an object keyed by phone
number: a map from phone to an optional session. -/
def Store : Type := String → Option QuizSession

/-- Embedding of `createQuizSession` (src/unnamed/part_000, lines 240-249):
unconditionally assigns a fresh session for `phone`, with
`expiresAt = now + 30 * 60 * 1000` (the fixed 30-minute TTL). -/
def createQuizSession (store : Store) (phone subject quizText : String)
    (correctAnswers : List String) (now : Nat) : Store :=
  fun p =>
    if p = phone then
      some { subject := subject, quizText := quizText, correctAnswers := correctAnswers,
             createdAt := now, expiresAt := now + 30 * 60 * 1000 }
    else store p

/-- Embedding of `getActiveQuizSession` (src/unnamed/part_000, lines
252-263): absent key gives `null`; `Date.now() > session.expiresAt` deletes
the entry and gives `null`; otherwise the session is returned.  The result
pairs the returned value with the possibly-updated store. -/
def getActiveQuizSession (store : Store) (phone : String) (now : Nat) :
    Option QuizSession × Store :=
  match store phone with
  | none => (none, store)
  | some session =>
    if session.expiresAt < now then
      (none, fun p => if p = phone then none else store p)
    else (some session, store)

/-- One element of the `results` array built by `gradeQuizAnswers`. -/
structure QuestionResult where
  questionNumber : Nat
  userAnswer : String
  correctAnswer : String
  isCorrect : Bool
deriving DecidableEq

/-- The success payload of `gradeQuizAnswers` (`success: true` object). -/
structure GradingSuccess where
  score : Int
  correctCount : Nat
  totalQuestions : Nat
  results : List QuestionResult
  subject : String
deriving DecidableEq

/-- The value returned by `gradeQuizAnswers`: either a recoverable
`success: false` object carrying a user-facing message, or the grading
payload.  The code returns these as values and never throws. -/
inductive GradeResult where
  | failure (message : String)
  | success (g : GradingSuccess)
deriving DecidableEq

/-- The `success: false` message for a missing or expired session. -/
def noActiveQuizMessage : String :=
  "❌ No active quiz found. Please request a new quiz first."

/-- The `success: false` message for an answer-count mismatch; it restates
the required count `n`. -/
def formatErrorMessage (n : Nat) : String :=
  "❌ Please provide " ++ toString n ++ " answers.\n\n*Format:* 1A 2C 3B\n*Or:* A C B"

/-- Characterize `Int.log 2` by its bracketing powers. -/
lemma int_log_eq {q : ℚ} {e : ℤ} (hq : 0 < q) (h1 : (2:ℚ) ^ e ≤ q)
    (h2 : q < (2:ℚ) ^ (e + 1)) : Int.log 2 q = e := by
  have hle : e ≤ Int.log 2 q := (Int.zpow_le_iff_le_log (by norm_num) hq).mp h1
  have hlt : Int.log 2 q < e + 1 := (Int.lt_zpow_iff_log_lt (by norm_num) hq).mp h2
  omega

/-- Round a rational to the nearest integer, ties to even — the tie rule
of IEEE-754 round-to-nearest. -/
def roundHalfEven (q : ℚ) : ℤ :=
  if q - ⌊q⌋ < 1 / 2 then ⌊q⌋
  else if 1 / 2 < q - ⌊q⌋ then ⌊q⌋ + 1
  else if 2 ∣ ⌊q⌋ then ⌊q⌋ else ⌊q⌋ + 1

/-- Round a rational to the nearest IEEE-754 binary64 value
(round-to-nearest, ties-to-even), for magnitudes in the normal range: a
number `q` with `2 ^ e ≤ |q| < 2 ^ (e + 1)` lies on a grid of spacing
`2 ^ (e - 52)` (53 significand bits).  Every value arising in the quiz
score computation (quotients in `(0, 1]`, percentages in `[0, 100]`) is
far inside the normal range, so this is exactly the rounding JS performs
after each arithmetic operation. -/
def roundToFloat (q : ℚ) : ℚ :=
  if q = 0 then 0
  else if 0 < q then
    (roundHalfEven (q / 2 ^ (Int.log 2 q - 52)) : ℚ) * 2 ^ (Int.log 2 q - 52)
  else
    -((roundHalfEven (-q / 2 ^ (Int.log 2 (-q) - 52)) : ℚ) * 2 ^ (Int.log 2 (-q) - 52))

/-- JS binary64 division: the exact quotient, rounded to the nearest
double.  Faithful when the operands are themselves exactly representable
(integers below `2 ^ 53`, as the counts and lengths here are). -/
def jsDiv (a b : ℚ) : ℚ := roundToFloat (a / b)

/-- JS binary64 multiplication: the exact product, rounded to the nearest
double. -/
def jsMul (a b : ℚ) : ℚ := roundToFloat (a * b)

/-- JS `Math.round`, applied to the exact rational value of its double
argument: the closest integer, ties toward positive infinity
(ECMA-262).  Exact — `Math.round` is specified on the value of `x`, not
computed by further float arithmetic. -/
def jsRound (q : ℚ) : ℤ := ⌊q + 1 / 2⌋

/-- Evaluation rule for `roundToFloat` on a positive rational, given its
binary exponent and rounded significand. -/
lemma roundToFloat_pos_eval {q : ℚ} {e m : ℤ} (hq : 0 < q) (he : Int.log 2 q = e)
    (hm : roundHalfEven (q / 2 ^ (e - 52)) = m) :
    roundToFloat q = m * 2 ^ (e - 52) := by
  unfold roundToFloat
  rw [if_neg (ne_of_gt hq), if_pos hq, he, hm]

/-- The `userAnswers.forEach((answer, index) => ...)` loop of
`gradeQuizAnswers` (src/unnamed/part_000, lines 308-318), building the
`results` array; `index` starts at 0 and `session.correctAnswers[index]`
is in bounds because the caller checked the lengths are equal (`getD`
supplies a dummy for the impossible out-of-bounds case). -/
def gradeLoop (keys : List String) : List String → Nat → List QuestionResult
  | [], _ => []
  | answer :: rest, index =>
    { questionNumber := index + 1,
      userAnswer := jsToUpper answer,
      correctAnswer := jsToUpper (keys.getD index ""),
      isCorrect := jsToUpper answer == jsToUpper (keys.getD index "") }
      :: gradeLoop keys rest (index + 1)

/-- Embedding of `gradeQuizAnswers` (src/unnamed/part_000, lines 287-333):
look up the active session (this may evict an expired entry); fail with
`noActiveQuizMessage` when absent; fail with `formatErrorMessage` on an
answer-count mismatch, leaving the store as the lookup left it; otherwise
grade element-wise case-insensitively, compute
`score = Math.round((correctCount / total) * 100)` in binary64 — the
division and the multiplication each round to the nearest double — delete
the session, and return the grading payload. -/
def gradeQuizAnswers (store : Store) (phone : String) (userAnswers : List String)
    (now : Nat) : Store × GradeResult :=
  let looked := getActiveQuizSession store phone now
  match looked.1 with
  | none => (looked.2, .failure noActiveQuizMessage)
  | some session =>
    if userAnswers.length ≠ session.correctAnswers.length then
      (looked.2, .failure (formatErrorMessage session.correctAnswers.length))
    else
      let results := gradeLoop session.correctAnswers userAnswers 0
      let correctCount := (results.filter (fun r => r.isCorrect)).length
      let score := jsRound
        (jsMul (jsDiv (correctCount : ℚ) (session.correctAnswers.length : ℚ)) 100)
      (fun p => if p = phone then none else looked.2 p,
       .success { score := score, correctCount := correctCount,
                  totalQuestions := session.correctAnswers.length,
                  results := results, subject := session.subject })

/-- The empty store, for concrete instantiations. -/
def emptyStore : Store := fun _ => none

/-- An inactive key: `getActiveQuizSession` on an absent entry returns
`null` and leaves the store alone. -/
lemma getActive_none (store : Store) (phone : String) (now : Nat)
    (h : store phone = none) :
    getActiveQuizSession store phone now = (none, store) := by
  unfold getActiveQuizSession
  rw [h]

/-- An unexpired entry: `getActiveQuizSession` returns it and leaves the
store alone. -/
lemma getActive_live (store : Store) (phone : String) (now : Nat) (s : QuizSession)
    (hs : store phone = some s) (hexp : now ≤ s.expiresAt) :
    getActiveQuizSession store phone now = (some s, store) := by
  unfold getActiveQuizSession
  rw [hs]
  dsimp only
  rw [if_neg (by omega)]

/-- An expired entry: `getActiveQuizSession` deletes it and returns `null`. -/
lemma getActive_expired (store : Store) (phone : String) (now : Nat) (s : QuizSession)
    (hs : store phone = some s) (hexp : s.expiresAt < now) :
    getActiveQuizSession store phone now =
      (none, fun p => if p = phone then none else store p) := by
  unfold getActiveQuizSession
  rw [hs]
  dsimp only
  rw [if_pos hexp]

/-- Grading with no stored session returns the no-active-quiz failure. -/
lemma grade_eq_noSession (store : Store) (phone : String) (answers : List String)
    (now : Nat) (h : store phone = none) :
    gradeQuizAnswers store phone answers now = (store, .failure noActiveQuizMessage) := by
  unfold gradeQuizAnswers
  rw [getActive_none store phone now h]

/-- Grading against an expired session returns the no-active-quiz failure
and evicts the stale entry. -/
lemma grade_eq_expired (store : Store) (phone : String) (answers : List String)
    (now : Nat) (s : QuizSession) (hs : store phone = some s)
    (hexp : s.expiresAt < now) :
    gradeQuizAnswers store phone answers now =
      (fun p => if p = phone then none else store p, .failure noActiveQuizMessage) := by
  unfold gradeQuizAnswers
  rw [getActive_expired store phone now s hs hexp]

/-- Grading an unexpired session with the wrong number of answers returns
the count-mismatch failure and leaves the store unchanged. -/
lemma grade_eq_mismatch (store : Store) (phone : String) (answers : List String)
    (now : Nat) (s : QuizSession) (hs : store phone = some s)
    (hexp : now ≤ s.expiresAt) (hlen : answers.length ≠ s.correctAnswers.length) :
    gradeQuizAnswers store phone answers now =
      (store, .failure (formatErrorMessage s.correctAnswers.length)) := by
  unfold gradeQuizAnswers
  rw [getActive_live store phone now s hs hexp]
  simp only [if_pos hlen]

/-- Grading an unexpired session with a matching number of answers deletes
the session and returns the grading payload. -/
lemma grade_eq_success (store : Store) (phone : String) (answers : List String)
    (now : Nat) (s : QuizSession) (hs : store phone = some s)
    (hexp : now ≤ s.expiresAt) (hlen : answers.length = s.correctAnswers.length) :
    gradeQuizAnswers store phone answers now =
      (fun p => if p = phone then none else store p,
       .success
         { score := jsRound
             (jsMul (jsDiv (((gradeLoop s.correctAnswers answers 0).filter
                 (fun r => r.isCorrect)).length : ℚ)
               (s.correctAnswers.length : ℚ)) 100),
           correctCount := ((gradeLoop s.correctAnswers answers 0).filter
             (fun r => r.isCorrect)).length,
           totalQuestions := s.correctAnswers.length,
           results := gradeLoop s.correctAnswers answers 0,
           subject := s.subject }) := by
  unfold gradeQuizAnswers
  rw [getActive_live store phone now s hs hexp]
  simp only [if_neg (by omega : ¬answers.length ≠ s.correctAnswers.length)]

/-- Claim C3 counterexample: at `now = expiresAt` exactly (a session
created at time 0 looked up at 1800000 ms = 30 minutes), the code's
eviction test `Date.now() > session.expiresAt` is false, so the lookup
still returns the stored session — the claim says lookup is absent
whenever `now >= expiresAt`. -/
theorem lookup_at_expiry_returns_session :
    (getActiveQuizSession (createQuizSession emptyStore "p" "Math" "Q" ["A"] 0)
        "p" 1800000).1 =
      some { subject := "Math", quizText := "Q", correctAnswers := ["A"],
             createdAt := 0, expiresAt := 1800000 } := by
  decide

/-- Claim C3 (amended): for every owner and time `now`, lookup returns the
stored session exactly when one is stored and `now ≤ expiresAt`; when a
stored session has `now > expiresAt`, lookup returns absent (never the
stale record) and deletes the stale record from the store; a session
created at `t0` with the fixed 30-minute TTL is visible at `t0 + 29m59s`
and absent at `t0 + 30m01s`. -/
theorem lookup_visibility :
    (∀ (store : Store) (phone : String) (now : Nat) (s : QuizSession),
        store phone = some s →
        ((getActiveQuizSession store phone now).1 = some s ↔ now ≤ s.expiresAt) ∧
        (s.expiresAt < now →
          (getActiveQuizSession store phone now).1 = none ∧
          (getActiveQuizSession store phone now).2 phone = none)) ∧
    (∀ (store : Store) (phone : String) (now : Nat),
        store phone = none → getActiveQuizSession store phone now = (none, store)) ∧
    (∀ (store : Store) (phone subject quizText : String) (key : List String) (t0 : Nat),
        (getActiveQuizSession (createQuizSession store phone subject quizText key t0)
            phone (t0 + 1799000)).1 =
          some { subject := subject, quizText := quizText, correctAnswers := key,
                 createdAt := t0, expiresAt := t0 + 30 * 60 * 1000 } ∧
        (getActiveQuizSession (createQuizSession store phone subject quizText key t0)
            phone (t0 + 1801000)).1 = none) := by
  refine ⟨?_, ?_, ?_⟩
  · intro store phone now s hs
    constructor
    · constructor
      · intro h
        by_contra hlt
        rw [getActive_expired store phone now s hs (by omega)] at h
        exact Option.noConfusion h
      · intro hle
        rw [getActive_live store phone now s hs hle]
    · intro hlt
      rw [getActive_expired store phone now s hs hlt]
      exact ⟨rfl, by simp⟩
  · intro store phone now h
    exact getActive_none store phone now h
  · intro store phone subject quizText key t0
    have hs : createQuizSession store phone subject quizText key t0 phone =
        some { subject := subject, quizText := quizText, correctAnswers := key,
               createdAt := t0, expiresAt := t0 + 30 * 60 * 1000 } := by
      simp [createQuizSession]
    constructor
    · rw [getActive_live _ _ _ _ hs (by simp only []; omega)]
    · rw [getActive_expired _ _ _ _ hs (by simp only []; omega)]

/-- Witness for `lookup_visibility`, at a concrete store with one session
created at time 0 for owner "p". -/
theorem lookup_visibility_witness :
    ((getActiveQuizSession (createQuizSession emptyStore "p" "Math" "Q" ["A"] 0)
        "p" 1800001).1 =
      some { subject := "Math", quizText := "Q", correctAnswers := ["A"],
             createdAt := 0, expiresAt := 0 + 30 * 60 * 1000 } ↔ (1800001 ≤ 0 + 30 * 60 * 1000)) ∧
    getActiveQuizSession emptyStore "q" 7 = (none, emptyStore) ∧
    (getActiveQuizSession (createQuizSession emptyStore "p" "Math" "Q" ["A"] 0)
        "p" (0 + 1799000)).1 =
      some { subject := "Math", quizText := "Q", correctAnswers := ["A"],
             createdAt := 0, expiresAt := 0 + 30 * 60 * 1000 } :=
  ⟨(lookup_visibility.1 (createQuizSession emptyStore "p" "Math" "Q" ["A"] 0) "p" 1800001
      { subject := "Math", quizText := "Q", correctAnswers := ["A"],
        createdAt := 0, expiresAt := 0 + 30 * 60 * 1000 } (by decide)).1,
   lookup_visibility.2.1 emptyStore "q" 7 rfl,
   (lookup_visibility.2.2 emptyStore "p" "Math" "Q" ["A"] 0).1⟩

/-- Claim C8: at most one session exists per owner (the store is a map
keyed by owner), and `createQuizSession` for an owner who already has a
session unconditionally overwrites it: afterwards the store maps that
owner to exactly the new session (new subject, quiz text and key), every
other owner's entry is untouched, and the old session is unreachable. -/
theorem create_overwrites (store : Store) (phone subject quizText : String)
    (key : List String) (now : Nat) :
    createQuizSession store phone subject quizText key now phone =
      some { subject := subject, quizText := quizText, correctAnswers := key,
             createdAt := now, expiresAt := now + 30 * 60 * 1000 } ∧
    ∀ p, p ≠ phone → createQuizSession store phone subject quizText key now p = store p := by
  constructor
  · simp [createQuizSession]
  · intro p hp
    simp [createQuizSession, hp]

/-- Witness for `create_overwrites`: owner "p" already holds a Science
session; creating a Math session overwrites it and leaves owner "q"
untouched. -/
theorem create_overwrites_witness :
    createQuizSession (createQuizSession emptyStore "p" "Sci" "Q1" ["A"] 0)
        "p" "Math" "Q2" ["B", "C"] 5 "p" =
      some { subject := "Math", quizText := "Q2", correctAnswers := ["B", "C"],
             createdAt := 5, expiresAt := 5 + 30 * 60 * 1000 } ∧
    createQuizSession (createQuizSession emptyStore "p" "Sci" "Q1" ["A"] 0)
        "p" "Math" "Q2" ["B", "C"] 5 "q" =
      createQuizSession emptyStore "p" "Sci" "Q1" ["A"] 0 "q" :=
  ⟨(create_overwrites (createQuizSession emptyStore "p" "Sci" "Q1" ["A"] 0)
      "p" "Math" "Q2" ["B", "C"] 5).1,
   (create_overwrites (createQuizSession emptyStore "p" "Sci" "Q1" ["A"] 0)
      "p" "Math" "Q2" ["B", "C"] 5).2 "q" (by decide)⟩

/-- Claim C5: in atomic mode, when the submitted answer count differs from
the session's key length (session present and unexpired), grading returns
the recoverable `FormatError` message restating the required count, the
store is left exactly as it was (the session can still be graded
afterwards with a matching count), and no per-question grading happens
(the result carries no grading payload). -/
theorem grade_mismatch_keeps_session (store : Store) (phone : String)
    (answers : List String) (now : Nat) (s : QuizSession)
    (hs : store phone = some s) (hexp : now ≤ s.expiresAt)
    (hlen : answers.length ≠ s.correctAnswers.length) :
    (gradeQuizAnswers store phone answers now).2 =
        .failure (formatErrorMessage s.correctAnswers.length) ∧
    (gradeQuizAnswers store phone answers now).1 = store ∧
    ∀ answers2 : List String, answers2.length = s.correctAnswers.length →
      ∃ g, (gradeQuizAnswers store phone answers2 now).2 = .success g := by
  rw [grade_eq_mismatch store phone answers now s hs hexp hlen]
  refine ⟨rfl, rfl, ?_⟩
  intro answers2 hlen2
  rw [grade_eq_success store phone answers2 now s hs hexp hlen2]
  exact ⟨_, rfl⟩

/-- Witness for `grade_mismatch_keeps_session`: a two-answer submission
against a three-question key fails with the count restated, keeps the
session, and a three-answer submission then succeeds. -/
theorem grade_mismatch_keeps_session_witness :
    (gradeQuizAnswers (createQuizSession emptyStore "p" "Math" "Q" ["A", "B", "C"] 0)
        "p" ["A", "B"] 5).2 = .failure (formatErrorMessage 3) ∧
    (gradeQuizAnswers (createQuizSession emptyStore "p" "Math" "Q" ["A", "B", "C"] 0)
        "p" ["A", "B"] 5).1 =
      createQuizSession emptyStore "p" "Math" "Q" ["A", "B", "C"] 0 ∧
    ∃ g, (gradeQuizAnswers (createQuizSession emptyStore "p" "Math" "Q" ["A", "B", "C"] 0)
        "p" ["A", "B", "D"] 5).2 = .success g := by
  have h := grade_mismatch_keeps_session
    (createQuizSession emptyStore "p" "Math" "Q" ["A", "B", "C"] 0) "p" ["A", "B"] 5
    { subject := "Math", quizText := "Q", correctAnswers := ["A", "B", "C"],
      createdAt := 0, expiresAt := 0 + 30 * 60 * 1000 }
    (by decide) (by decide) (by decide)
  exact ⟨h.1, h.2.1, h.2.2 ["A", "B", "D"] (by decide)⟩

/-- Claim C4: every complete (successful) grading pass deletes the
session, so a second grading attempt by the same owner — with any answers,
at any time — finds no session and yields the no-active-session failure
(the prompt to start a new quiz) instead of re-grading. -/
theorem grade_consumes_session (store : Store) (phone : String)
    (answers : List String) (now : Nat) (g : GradingSuccess)
    (h : (gradeQuizAnswers store phone answers now).2 = .success g) :
    (gradeQuizAnswers store phone answers now).1 phone = none ∧
    ∀ (answers2 : List String) (now2 : Nat),
      (gradeQuizAnswers (gradeQuizAnswers store phone answers now).1
          phone answers2 now2).2 = .failure noActiveQuizMessage := by
  have hdel : (gradeQuizAnswers store phone answers now).1 phone = none := by
    cases hsp : store phone with
    | none =>
      rw [grade_eq_noSession store phone answers now hsp] at h
      exact GradeResult.noConfusion h
    | some s =>
      by_cases hexp : s.expiresAt < now
      · rw [grade_eq_expired store phone answers now s hsp hexp] at h
        exact GradeResult.noConfusion h
      · by_cases hlen : answers.length = s.correctAnswers.length
        · rw [grade_eq_success store phone answers now s hsp (by omega) hlen]
          simp
        · rw [grade_eq_mismatch store phone answers now s hsp (by omega) hlen] at h
          exact GradeResult.noConfusion h
  refine ⟨hdel, ?_⟩
  intro answers2 now2
  rw [grade_eq_noSession _ phone answers2 now2 hdel]

/-- Witness for `grade_consumes_session`: after grading owner "p"'s
three-question session, the entry is gone and an immediate second attempt
reports no active quiz. -/
theorem grade_consumes_session_witness :
    (gradeQuizAnswers (createQuizSession emptyStore "p" "Math" "Q" ["A", "B", "C"] 0)
        "p" ["A", "B", "D"] 5).1 "p" = none ∧
    (gradeQuizAnswers
        (gradeQuizAnswers (createQuizSession emptyStore "p" "Math" "Q" ["A", "B", "C"] 0)
          "p" ["A", "B", "D"] 5).1 "p" ["A", "B", "D"] 6).2 =
      .failure noActiveQuizMessage := by
  have hsucc := congrArg Prod.snd
    (grade_eq_success (createQuizSession emptyStore "p" "Math" "Q" ["A", "B", "C"] 0)
      "p" ["A", "B", "D"] 5
      { subject := "Math", quizText := "Q", correctAnswers := ["A", "B", "C"],
        createdAt := 0, expiresAt := 0 + 30 * 60 * 1000 }
      (by decide) (by decide) (by decide))
  have h := grade_consumes_session
    (createQuizSession emptyStore "p" "Math" "Q" ["A", "B", "C"] 0) "p" ["A", "B", "D"] 5
    _ hsucc
  exact ⟨h.1, h.2 ["A", "B", "D"] 6⟩

/-- The grading loop builds one result per submitted answer. -/
lemma gradeLoop_length (keys : List String) :
    ∀ (answers : List String) (i : Nat), (gradeLoop keys answers i).length = answers.length
  | [], _ => rfl
  | _ :: rest, i => by
    simp only [gradeLoop, List.length_cons, gradeLoop_length keys rest (i + 1)]

/-- Element `j` of the grading loop's output, for starting index `i`. -/
lemma gradeLoop_getD (keys : List String) (answers : List String) :
    ∀ (i j : Nat), j < answers.length →
    (gradeLoop keys answers i).getD j ⟨0, "", "", false⟩ =
      { questionNumber := i + j + 1,
        userAnswer := jsToUpper (answers.getD j ""),
        correctAnswer := jsToUpper (keys.getD (i + j) ""),
        isCorrect := jsToUpper (answers.getD j "") == jsToUpper (keys.getD (i + j) "") } := by
  induction answers with
  | nil => intro i j h; simp at h
  | cons a rest ih =>
    intro i j h
    cases j with
    | zero => simp [gradeLoop]
    | succ k =>
      have hk : k < rest.length := by simpa using h
      simp only [gradeLoop, List.getD_cons_succ]
      rw [ih (i + 1) k hk]
      have harith : i + 1 + k = i + (k + 1) := by omega
      rw [harith]

/-- Filtering through `Nat.succ`-mapped indices shifts the predicate. -/
lemma length_filter_map_succ (p : Nat → Bool) : ∀ l : List Nat,
    ((l.map Nat.succ).filter p).length = (l.filter (fun i => p (i + 1))).length := by
  intro l
  induction l with
  | nil => rfl
  | cons a t ih =>
    simp only [List.map_cons, List.filter_cons, Nat.succ_eq_add_one]
    by_cases h : p (a + 1) = true
    · simp [h, ih]
    · simp [h, ih]

/-- The number of correct results produced by the grading loop equals the
number of positions whose upper-cased answer matches the upper-cased key
letter at the corresponding offset. -/
lemma gradeLoop_filter_length (keys : List String) (answers : List String) :
    ∀ i : Nat,
      ((gradeLoop keys answers i).filter (fun r => r.isCorrect)).length =
      ((List.range answers.length).filter
        (fun j => jsToUpper (answers.getD j "") == jsToUpper (keys.getD (i + j) ""))).length := by
  induction answers with
  | nil => intro i; simp [gradeLoop]
  | cons a rest ih =>
    intro i
    have hc : ∀ j ∈ List.range rest.length,
        (jsToUpper ((a :: rest).getD (j + 1) "") == jsToUpper (keys.getD (i + (j + 1)) "")) =
        (jsToUpper (rest.getD j "") == jsToUpper (keys.getD (i + 1 + j) "")) := by
      intro j _
      have harith : i + (j + 1) = i + 1 + j := by omega
      rw [List.getD_cons_succ, harith]
    simp only [gradeLoop, List.length_cons, List.range_succ_eq_map, List.filter_cons,
      List.getD_cons_zero, Nat.add_zero]
    by_cases h : (jsToUpper a == jsToUpper (keys.getD i "")) = true
    · rw [if_pos h, if_pos h, List.length_cons, List.length_cons,
        length_filter_map_succ, List.filter_congr hc, ih (i + 1)]
    · rw [if_neg h, if_neg h, length_filter_map_succ, List.filter_congr hc, ih (i + 1)]

/-- Claim C1: for every atomic grading pass where the submitted answer
list has the same length as the session's answer key, the result's
`correctCount` equals the number of indices at which the submitted answer,
upper-cased, equals the key letter, upper-cased, and the per-question
results carry exactly those boolean flags together with the upper-cased
user and correct letters. -/
theorem grading_correct_count (store : Store) (phone : String) (answers : List String)
    (now : Nat) (s : QuizSession) (hs : store phone = some s) (hexp : now ≤ s.expiresAt)
    (hlen : answers.length = s.correctAnswers.length) :
    ∃ g, (gradeQuizAnswers store phone answers now).2 = .success g ∧
      g.correctCount =
        ((List.range s.correctAnswers.length).filter
          (fun i => jsToUpper (answers.getD i "") ==
                    jsToUpper (s.correctAnswers.getD i ""))).length ∧
      g.results.length = s.correctAnswers.length ∧
      ∀ i, i < s.correctAnswers.length →
        g.results.getD i ⟨0, "", "", false⟩ =
          { questionNumber := i + 1,
            userAnswer := jsToUpper (answers.getD i ""),
            correctAnswer := jsToUpper (s.correctAnswers.getD i ""),
            isCorrect := jsToUpper (answers.getD i "") ==
                         jsToUpper (s.correctAnswers.getD i "") } := by
  rw [grade_eq_success store phone answers now s hs hexp hlen]
  refine ⟨_, rfl, ?_, ?_, ?_⟩
  · show ((gradeLoop s.correctAnswers answers 0).filter (fun r => r.isCorrect)).length = _
    rw [gradeLoop_filter_length s.correctAnswers answers 0, hlen]
    exact congrArg List.length (List.filter_congr (fun j _ => by rw [Nat.zero_add]))
  · show (gradeLoop s.correctAnswers answers 0).length = _
    rw [gradeLoop_length, hlen]
  · intro i hi
    show (gradeLoop s.correctAnswers answers 0).getD i ⟨0, "", "", false⟩ = _
    rw [gradeLoop_getD s.correctAnswers answers 0 i (by omega)]
    rw [Nat.zero_add]

/-- Witness for `grading_correct_count`: grading `["a","B","D"]` against
key `["A","B","C"]` (note the lower-case submission) counts the matching
indices 0 and 1. -/
theorem grading_correct_count_witness :
    ∃ g, (gradeQuizAnswers (createQuizSession emptyStore "p" "Math" "Q" ["A", "B", "C"] 0)
        "p" ["a", "B", "D"] 5).2 = .success g ∧
      g.correctCount =
        ((List.range 3).filter
          (fun i => jsToUpper (["a", "B", "D"].getD i "") ==
                    jsToUpper (["A", "B", "C"].getD i ""))).length := by
  obtain ⟨g, h1, h2, -, -⟩ := grading_correct_count
    (createQuizSession emptyStore "p" "Math" "Q" ["A", "B", "C"] 0) "p" ["a", "B", "D"] 5
    { subject := "Math", quizText := "Q", correctAnswers := ["A", "B", "C"],
      createdAt := 0, expiresAt := 0 + 30 * 60 * 1000 }
    (by decide) (by decide) (by decide)
  exact ⟨g, h1, h2⟩

/-- Specification-side rounding, from the spec's words: round half away
from zero.  The spec asserts the reported score equals this applied to
the exact `100 * correctCount / totalQuestions`; the code's binary64
evaluation agrees only when no double rounding crosses a half-way
boundary. -/
def roundHalfAwayFromZero (q : ℚ) : ℤ :=
  if 0 ≤ q then ⌊q + 1 / 2⌋ else ⌈q - 1 / 2⌉

/-- Binary64 score of 0 of 3: both operations are exact on zero. -/
lemma score_float_0_3 : jsRound (jsMul (jsDiv (0:ℚ) 3) 100) = 0 := by
  norm_num [jsDiv, jsMul, roundToFloat, jsRound, Int.floor_eq_iff]

/-- Binary64 score of 1 of 3: the double nearest `1/3` is
`6004799503160661 / 2 ^ 54`, times 100 rounds to
`4691249611844266 / 2 ^ 47 = 33.333...332`, and `Math.round` gives 33. -/
lemma score_float_1_3 : jsRound (jsMul (jsDiv (1:ℚ) 3) 100) = 33 := by
  have hd : jsDiv (1:ℚ) 3 = 6004799503160661 / 18014398509481984 := by
    unfold jsDiv
    rw [roundToFloat_pos_eval (e := -2) (m := 6004799503160661) (by norm_num)
        (int_log_eq (by norm_num) (by norm_num) (by norm_num))
        (by norm_num [roundHalfEven, Int.floor_eq_iff])]
    norm_num
  have hm : jsMul ((6004799503160661 : ℚ) / 18014398509481984) 100 =
      4691249611844266 / 140737488355328 := by
    unfold jsMul
    rw [roundToFloat_pos_eval (e := 5) (m := 4691249611844266) (by norm_num)
        (int_log_eq (by norm_num) (by norm_num) (by norm_num))
        (by norm_num [roundHalfEven, Int.floor_eq_iff])]
    norm_num
  rw [hd, hm]
  norm_num [jsRound, Int.floor_eq_iff]

/-- Binary64 score of 2 of 3: the double nearest `2/3` is
`6004799503160661 / 2 ^ 53`, times 100 rounds to
`4691249611844266 / 2 ^ 46 = 66.666...664`, and `Math.round` gives 67. -/
lemma score_float_2_3 : jsRound (jsMul (jsDiv (2:ℚ) 3) 100) = 67 := by
  have hd : jsDiv (2:ℚ) 3 = 6004799503160661 / 9007199254740992 := by
    unfold jsDiv
    rw [roundToFloat_pos_eval (e := -1) (m := 6004799503160661) (by norm_num)
        (int_log_eq (by norm_num) (by norm_num) (by norm_num))
        (by norm_num [roundHalfEven, Int.floor_eq_iff])]
    norm_num
  have hm : jsMul ((6004799503160661 : ℚ) / 9007199254740992) 100 =
      4691249611844266 / 70368744177664 := by
    unfold jsMul
    rw [roundToFloat_pos_eval (e := 6) (m := 4691249611844266) (by norm_num)
        (int_log_eq (by norm_num) (by norm_num) (by norm_num))
        (by norm_num [roundHalfEven, Int.floor_eq_iff])]
    norm_num
  rw [hd, hm]
  norm_num [jsRound, Int.floor_eq_iff]

/-- Binary64 score of 3 of 3: `3/3` and `1 * 100` are both exact. -/
lemma score_float_3_3 : jsRound (jsMul (jsDiv (3:ℚ) 3) 100) = 100 := by
  have hd : jsDiv (3:ℚ) 3 = 1 := by
    unfold jsDiv
    rw [roundToFloat_pos_eval (e := 0) (m := 4503599627370496) (by norm_num)
        (int_log_eq (by norm_num) (by norm_num) (by norm_num))
        (by norm_num [roundHalfEven, Int.floor_eq_iff])]
    norm_num
  have hm : jsMul (1 : ℚ) 100 = 100 := by
    unfold jsMul
    rw [roundToFloat_pos_eval (e := 6) (m := 7036874417766400) (by norm_num)
        (int_log_eq (by norm_num) (by norm_num) (by norm_num))
        (by norm_num [roundHalfEven, Int.floor_eq_iff])]
    norm_num
  rw [hd, hm]
  norm_num [jsRound, Int.floor_eq_iff]

/-- Binary64 score of 113 of 200: the exact quotient is `0.565`, but the
nearest double is `5089067578928660 / 2 ^ 53 = 0.56499999999999994...`;
times 100 rounds to `7951668092076031 / 2 ^ 47 = 56.49999999999999289`,
strictly below `56.5`, so `Math.round` gives 56 — not the 57 that exact
half-away-from-zero rounding of `56.5` gives. -/
lemma score_float_113_200 : jsRound (jsMul (jsDiv (113:ℚ) 200) 100) = 56 := by
  have hd : jsDiv (113:ℚ) 200 = 5089067578928660 / 9007199254740992 := by
    unfold jsDiv
    rw [roundToFloat_pos_eval (e := -1) (m := 5089067578928660) (by norm_num)
        (int_log_eq (by norm_num) (by norm_num) (by norm_num))
        (by norm_num [roundHalfEven, Int.floor_eq_iff])]
    norm_num
  have hm : jsMul ((5089067578928660 : ℚ) / 9007199254740992) 100 =
      7951668092076031 / 140737488355328 := by
    unfold jsMul
    rw [roundToFloat_pos_eval (e := 5) (m := 7951668092076031) (by norm_num)
        (int_log_eq (by norm_num) (by norm_num) (by norm_num))
        (by norm_num [roundHalfEven, Int.floor_eq_iff])]
    norm_num
  rw [hd, hm]
  norm_num [jsRound, Int.floor_eq_iff]

/-- A key of 200 letters `A`, for the counterexample session. -/
def key200 : List String := List.replicate 200 "A"

/-- A submission matching `key200` at exactly its first 113 positions. -/
def answers113 : List String := List.replicate 113 "A" ++ List.replicate 87 "B"

/-- A store holding a 200-question session for owner "p". -/
def store200 : Store := createQuizSession emptyStore "p" "Math" "Q" key200 0

set_option maxRecDepth 8000 in
/-- Claim C2 counterexample: a successful grading pass with 113 correct
of 200 reports the score 56 — the binary64 evaluation of
`(113/200)*100` is `56.49999999999999289`, which `Math.round` takes to
56 — while rounding `100 * 113 / 200 = 56.5` half away from zero in
exact arithmetic gives 57.  The claim's universal rounding law fails at
this grading pass. -/
theorem score_rounding_counterexample :
    ∃ g, (gradeQuizAnswers store200 "p" answers113 5).2 = .success g ∧
      g.correctCount = 113 ∧ g.totalQuestions = 200 ∧ g.score = 56 ∧
      roundHalfAwayFromZero (100 * (113 : ℚ) / (200 : ℚ)) = 57 := by
  have hs : store200 "p" = some
      { subject := "Math", quizText := "Q", correctAnswers := key200,
        createdAt := 0, expiresAt := 0 + 30 * 60 * 1000 } := rfl
  rw [grade_eq_success store200 "p" answers113 5 _ hs (by decide) (by decide)]
  have hc : ((gradeLoop key200 answers113 0).filter (fun r => r.isCorrect)).length = 113 := by
    decide
  refine ⟨_, rfl, hc, rfl, ?_, ?_⟩
  · show jsRound (jsMul (jsDiv
        ((((gradeLoop key200 answers113 0).filter (fun r => r.isCorrect)).length : ℕ) : ℚ)
        ((key200.length : ℕ) : ℚ)) 100) = 56
    rw [hc, show key200.length = 200 from rfl]
    push_cast
    exact score_float_113_200
  · symm
    norm_num [roundHalfAwayFromZero, Int.floor_eq_iff]

/-- Claim C2 (amended): for every successful atomic grading pass
(non-empty key), the reported score is `Math.round` of the binary64
evaluation of `(correctCount / totalQuestions) * 100`, the quotient and
product each rounded to the nearest double.  For the system's 3-question
quizzes this agrees with rounding `100 * correctCount / totalQuestions`
half away from zero in exact arithmetic — in particular 2 correct of 3
yields 67 and 1 correct of 3 yields 33 — but the agreement is not
universal (113 of 200 yields 56, not 57). -/
theorem grading_percentage (store : Store) (phone : String) (answers : List String)
    (now : Nat) (s : QuizSession) (hs : store phone = some s) (hexp : now ≤ s.expiresAt)
    (hlen : answers.length = s.correctAnswers.length)
    (_hpos : 0 < s.correctAnswers.length) :
    ∃ g, (gradeQuizAnswers store phone answers now).2 = .success g ∧
      g.score = jsRound (jsMul (jsDiv (g.correctCount : ℚ) (g.totalQuestions : ℚ)) 100) ∧
      (g.totalQuestions = 3 →
        g.score = roundHalfAwayFromZero
          (100 * (g.correctCount : ℚ) / (g.totalQuestions : ℚ))) ∧
      (g.correctCount = 2 ∧ g.totalQuestions = 3 → g.score = 67) ∧
      (g.correctCount = 1 ∧ g.totalQuestions = 3 → g.score = 33) := by
  rw [grade_eq_success store phone answers now s hs hexp hlen]
  refine ⟨_, rfl, rfl, ?_, ?_, ?_⟩
  · intro h3
    dsimp only at h3 ⊢
    have hcle : ((gradeLoop s.correctAnswers answers 0).filter
        (fun r => r.isCorrect)).length ≤ 3 := by
      calc ((gradeLoop s.correctAnswers answers 0).filter (fun r => r.isCorrect)).length
          ≤ (gradeLoop s.correctAnswers answers 0).length := List.length_filter_le _ _
        _ = answers.length := gradeLoop_length _ _ _
        _ = 3 := by rw [hlen, h3]
    rw [h3]
    set n := ((gradeLoop s.correctAnswers answers 0).filter
      (fun r => r.isCorrect)).length with hn
    interval_cases n
    · push_cast
      rw [score_float_0_3]
      symm
      norm_num [roundHalfAwayFromZero, Int.floor_eq_iff]
    · push_cast
      rw [score_float_1_3]
      symm
      norm_num [roundHalfAwayFromZero, Int.floor_eq_iff]
    · push_cast
      rw [score_float_2_3]
      symm
      norm_num [roundHalfAwayFromZero, Int.floor_eq_iff]
    · push_cast
      rw [score_float_3_3]
      symm
      norm_num [roundHalfAwayFromZero, Int.floor_eq_iff]
  · rintro ⟨h2, h3⟩
    dsimp only at h2 h3 ⊢
    rw [h2, h3]
    push_cast
    exact score_float_2_3
  · rintro ⟨h2, h3⟩
    dsimp only at h2 h3 ⊢
    rw [h2, h3]
    push_cast
    exact score_float_1_3

/-- Witness for `grading_percentage`: grading 2-of-3 correct answers at a
concrete store, the score obeys the binary64 law, and equals 67 for the
2-of-3 pass. -/
theorem grading_percentage_witness :
    ∃ g, (gradeQuizAnswers (createQuizSession emptyStore "p" "Math" "Q" ["A", "B", "C"] 0)
        "p" ["A", "B", "D"] 5).2 = .success g ∧
      g.score = jsRound (jsMul (jsDiv (g.correctCount : ℚ) (g.totalQuestions : ℚ)) 100) ∧
      (g.correctCount = 2 ∧ g.totalQuestions = 3 → g.score = 67) := by
  obtain ⟨g, h1, h2, -, h4, -⟩ := grading_percentage
    (createQuizSession emptyStore "p" "Math" "Q" ["A", "B", "C"] 0) "p" ["A", "B", "D"] 5
    { subject := "Math", quizText := "Q", correctAnswers := ["A", "B", "C"],
      createdAt := 0, expiresAt := 0 + 30 * 60 * 1000 }
    (by decide) (by decide) (by decide) (by decide)
  exact ⟨g, h1, h2, h4⟩

/-- Claim C6: the numbered form (digit run immediately followed by a
letter) is tried first — whenever it matches anywhere, its letters are the
result, in left-to-right order with the numeric prefixes discarded — and
output is normalized to uppercase regardless of input case:
`"1A 2C 3B"`, `"A C B"` and `"a, c, b"` all parse to `["A","C","B"]`. -/
theorem parser_formats :
    (∀ message : String,
        pattern1Letters (jsTrim (jsToUpper message)).data ≠ [] →
        parseQuizAnswers message =
          (pattern1Letters (jsTrim (jsToUpper message)).data).map Char.toString) ∧
    parseQuizAnswers "1A 2C 3B" = ["A", "C", "B"] ∧
    parseQuizAnswers "A C B" = ["A", "C", "B"] ∧
    parseQuizAnswers "a, c, b" = ["A", "C", "B"] := by
  refine ⟨?_, by decide, by decide, by decide⟩
  intro message h
  unfold parseQuizAnswers
  rw [if_pos (by simpa using List.length_pos.mpr h)]

/-- Witness for `parser_formats`: a message matching the numbered pattern
parses to exactly the pattern's captured letters. -/
theorem parser_formats_witness :
    parseQuizAnswers "1B 2D" =
      (pattern1Letters (jsTrim (jsToUpper "1B 2D")).data).map Char.toString :=
  parser_formats.1 "1B 2D" (by decide)

/-- Claim C7 counterexample: `"banana"` does not parse to `[]`.  The
bare-letter fallback regex `/[A-D]/g` matches every `A`-to-`D` character
anywhere, including inside ordinary words, so `"banana"` (upper-cased
`"BANANA"`) yields its four embedded letters. -/
theorem parse_banana :
    parseQuizAnswers "banana" = ["B", "A", "A", "A"] := by decide

/-- Claim C7 (amended): the parser yields the empty sequence exactly when
the upper-cased, trimmed text contains no digit immediately followed by a
letter A-D and fewer than two characters from A-D anywhere; letters
embedded inside ordinary words do count as answers. -/
theorem parse_empty_iff (message : String) :
    parseQuizAnswers message = [] ↔
      (pattern1Letters (jsTrim (jsToUpper message)).data = [] ∧
       ((jsTrim (jsToUpper message)).data.filter isAnswerLetter).length < 2) := by
  unfold parseQuizAnswers
  dsimp only
  split_ifs with h1 h2
  · have hne : pattern1Letters (jsTrim (jsToUpper message)).data ≠ [] := by
      intro hx
      rw [hx] at h1
      exact absurd h1 (by simp)
    constructor
    · intro hx
      exact absurd (List.map_eq_nil.mp hx) hne
    · rintro ⟨hx, -⟩
      exact absurd hx hne
  · constructor
    · intro hx
      have : (jsTrim (jsToUpper message)).data.filter isAnswerLetter = [] :=
        List.map_eq_nil.mp hx
      rw [this] at h2
      simp at h2
    · rintro ⟨-, hx⟩
      omega
  · refine ⟨fun _ => ⟨?_, by omega⟩, fun _ => rfl⟩
    have : (pattern1Letters (jsTrim (jsToUpper message)).data).length = 0 := by omega
    exact List.length_eq_zero.mp this

/-- Witness for `parse_empty_iff`: `"hi there"` has no digit-letter pair
and no A-D letters at all, so it parses to the empty sequence. -/
theorem parse_empty_iff_witness : parseQuizAnswers "hi there" = [] :=
  (parse_empty_iff "hi there").mpr (by decide)

/-- The hardcoded fallback quiz text returned by the `catch` branch of
`generateQuiz` (src/unnamed/part_000, lines 83-85). -/
def fallbackQuizText : String :=
  "Question 1: What is 15 × 4? A) 45 B) 60 C) 50 D) 55\nQuestion 2: Solve 2x + 5 = 15 A) x=10 B) x=5 C) x=7.5 D) x=8\nQuestion 3: Area of rectangle? A) 13 B) 40 C) 26 D) 45"

/-- Embedding of `generateQuiz` (src/unnamed/part_000, lines 76-86): the
external generation call is a parameter — `some text` when it succeeds,
`none` when it throws — and the `catch` branch returns the hardcoded
fallback quiz, so the failure is absorbed and never escapes (the function
is total and always produces quiz text). -/
def generateQuiz (genResult : Option String) (_subject : String) : String :=
  match genResult with
  | some text => text
  | none => fallbackQuizText

/-- Does the character list start with the header matched by the split
regex `/Question \d+: /` of `startQuiz`?  If so, return the characters
after the header. -/
def questionHeaderEnd (cs : List Char) : Option (List Char) :=
  if cs.take 9 = "Question ".data then
    let rest := cs.drop 9
    let ds := rest.takeWhile Char.isDigit
    if ds ≠ [] ∧ (rest.drop ds.length).take 2 = [':', ' '] then
      some ((rest.drop ds.length).drop 2)
    else none
  else none

/-- Splitter for `quizText.split(/Question \d+: /)`: scan left to right;
each header match ends the current piece and starts the next.  `fuel`
bounds the recursion (each step consumes at least one character, and a
header consumes at least twelve, so `fuel = cs.length` is enough); the
fuel-exhausted branch is unreachable on those calls. -/
def splitGo : Nat → List Char → List Char → List (List Char)
  | _, [], acc => [acc.reverse]
  | 0, cs, acc => [acc.reverse ++ cs]
  | fuel + 1, c :: rest, acc =>
    match questionHeaderEnd (c :: rest) with
    | some after => acc.reverse :: splitGo fuel after []
    | none => splitGo fuel rest (c :: acc)

/-- `quizText.split(/Question \d+: /)` as a list of character lists. -/
def splitQuizBlocks (cs : List Char) : List (List Char) :=
  splitGo cs.length cs []

/-- Split a character list on a separator character, keeping empty pieces,
as JS `String.prototype.split` with a single-character separator does. -/
def splitCharsOn (sep : Char) : List Char → List Char → List String
  | [], acc => [String.mk acc.reverse]
  | c :: rest, acc =>
    if c = sep then String.mk acc.reverse :: splitCharsOn sep rest []
    else splitCharsOn sep rest (c :: acc)

/-- First match of the regex `/(\d)-([A-D])/gi` in a character list,
returning the letter (the `split('-')[1]` of the match) upper-cased:
scan for a digit, a dash and a case-insensitive answer letter. -/
def findDigitDashLetter : List Char → Option Char
  | [] => none
  | d :: rest =>
    match rest with
    | '-' :: l :: _ =>
      if d.isDigit && isAnswerLetter l.toUpper then some l.toUpper
      else findDigitDashLetter rest
    | _ => findDigitDashLetter rest

/-- One parsed question of the incremental implementation: the object
`{ q, options, answer }` built by `startQuiz`
(src/whatsapp/whatsappHandler.js, lines 66-74). -/
structure IncQuestion where
  q : String
  options : List String
  answer : String
deriving DecidableEq

/-- Parse one question block of `startQuiz`: split into non-blank lines;
the first line is the question text, the next up to four lines are the
options, and the answer comes from the first `digit-letter` pair on a
line starting (case-insensitively) with "correct answers", defaulting to
the letter `A` when no such pair is found. -/
def parseQuizBlock (block : String) : IncQuestion :=
  let lines := (splitCharsOn '\n' block.data []).filter (fun l => jsTrim l ≠ "")
  let qText := lines.getD 0 ""
  let options := (lines.drop 1).take 4
  let answerLine :=
    (lines.find? (fun l => "correct answers".data.isPrefixOf (jsToLower l).data)).getD ""
  let correctAnswer := (findDigitDashLetter answerLine.data).getD 'A'
  { q := qText, options := options, answer := correctAnswer.toString }

/-- The question list built by `startQuiz` from raw quiz text:
`quizText.split(/Question \d+: /).slice(1).map(...)`. -/
def startQuizQuestions (quizText : String) : List IncQuestion :=
  ((splitQuizBlocks quizText.data).drop 1).map (fun block => parseQuizBlock (String.mk block))

/-- One answer recorded by `answerQuiz`'s `session.answersGiven.push`. -/
structure GivenAnswer where
  given : String
  correct : String
deriving DecidableEq

/-- One session of the incremental implementation
(`quizSessions[phoneNumber] = { subject, questions, answersGiven: [] }`). -/
structure IncSession where
  subject : String
  questions : List IncQuestion
  answersGiven : List GivenAnswer
deriving DecidableEq

/-- The incremental implementation's session store. -/
def IncStore : Type := String → Option IncSession

/-- The empty incremental store. -/
def emptyIncStore : IncStore := fun _ => none

/-- The fresh session stored by `startQuiz`
(src/whatsapp/whatsappHandler.js, line 75). -/
def mkIncSession (subject : String) (questions : List IncQuestion) : IncSession :=
  { subject := subject, questions := questions, answersGiven := [] }

/-- Embedding of `startQuiz` (src/whatsapp/whatsappHandler.js, lines
64-77): generate quiz text (external result passed as a parameter), parse
it into questions, store a fresh session for the phone number, and return
the questions. -/
def startQuiz (store : IncStore) (phoneNumber subject : String)
    (genResult : Option String) : IncStore × List IncQuestion :=
  let quizText := generateQuiz genResult subject
  let questions := startQuizQuestions quizText
  (fun p => if p = phoneNumber then some (mkIncSession subject questions) else store p,
   questions)

/-- Outcome of one `answerQuiz` call.  `missingQuestion` models the
JavaScript `TypeError` raised when `session.questions[currentIndex]` is
`undefined` and its `.answer` is read. -/
inductive AnswerOutcome where
  | noSession (message : String)
  | missingQuestion
  | answered (finished : Bool) (message : String)
deriving DecidableEq

/-- Embedding of `answerQuiz` (src/whatsapp/whatsappHandler.js, lines
79-98): no session gives the no-active-quiz reply; otherwise the current
question is `questions[answersGiven.length]`; the answer is compared
case-insensitively after trimming, appended to `answersGiven`, and when
`answersGiven.length` reaches `questions.length` the score line is added
and the session is deleted (the external `recordQuizScore` side effect is
outside the model). -/
def answerQuiz (store : IncStore) (phoneNumber answer : String) :
    IncStore × AnswerOutcome :=
  match store phoneNumber with
  | none => (store, .noSession "❌ No active quiz found.")
  | some session =>
    match session.questions.get? session.answersGiven.length with
    | none => (store, .missingQuestion)
    | some currentQuestion =>
      let isCorrect := jsToUpper (jsTrim answer) == jsToUpper currentQuestion.answer
      let newGiven := session.answersGiven ++ [{ given := answer, correct := currentQuestion.answer }]
      let feedback :=
        if isCorrect then "✅ Correct!"
        else "❌ Wrong! Correct answer: " ++ currentQuestion.answer
      let finished := newGiven.length == session.questions.length
      if finished then
        let totalCorrect :=
          (newGiven.filter (fun a => jsToUpper a.given == jsToUpper a.correct)).length
        let message := feedback ++ "\n🎉 Quiz finished! Score: " ++ toString totalCorrect ++
          "/" ++ toString session.questions.length
        (fun p => if p = phoneNumber then none else store p, .answered true message)
      else
        (fun p =>
           if p = phoneNumber then
             some { subject := session.subject, questions := session.questions,
                    answersGiven := newGiven }
           else store p,
         .answered false feedback)

set_option maxRecDepth 4000 in
/-- The fallback quiz text splits into exactly three question blocks. -/
lemma fallback_three_questions : (startQuizQuestions fallbackQuizText).length = 3 := by
  decide

set_option maxRecDepth 4000 in
/-- Each fallback question's answer is the default letter `A` (the
fallback text carries no "correct answers" line). -/
lemma fallback_answers :
    (startQuizQuestions fallbackQuizText).map (fun q => q.answer) = ["A", "A", "A"] := by
  decide

/-- Claim C9: when the external generation call fails, `generateQuiz`
returns the fixed hardcoded fallback quiz for any subject (the failure is
absorbed internally — the function still returns quiz text), and that
fallback parses into exactly 3 questions, each carrying one single-letter
correct answer, so the answer key has length 3 and is non-empty (the
fallback text has no "correct answers" line, so each per-question answer
is the parser's default letter `A`). -/
theorem generateQuiz_fallback (subject : String) :
    generateQuiz none subject = fallbackQuizText ∧
    (startQuizQuestions fallbackQuizText).length = 3 ∧
    (startQuizQuestions fallbackQuizText).map (fun q => q.answer) = ["A", "A", "A"] ∧
    (startQuizQuestions fallbackQuizText).map (fun q => q.answer) ≠ [] := by
  refine ⟨rfl, ?_, ?_, ?_⟩
  · exact fallback_three_questions
  · exact fallback_answers
  · rw [fallback_answers]
    decide

/-- Witness for `generateQuiz_fallback` at the subject "Math". -/
theorem generateQuiz_fallback_witness :
    generateQuiz none "Math" = fallbackQuizText ∧
    (startQuizQuestions fallbackQuizText).length = 3 ∧
    (startQuizQuestions fallbackQuizText).map (fun q => q.answer) = ["A", "A", "A"] ∧
    (startQuizQuestions fallbackQuizText).map (fun q => q.answer) ≠ [] :=
  generateQuiz_fallback "Math"

/-- Claim C10: for incremental sessions, `answerQuiz` reads the question
at index `answersGiven.length`; a fresh session satisfies
`answersGiven.length < questions.length` exactly when its question list
is non-empty; under that invariant the access is in bounds (the call
answers rather than hitting the missing-question fault), the session is
deleted exactly when `answersGiven.length` reaches `questions.length`,
and any session left in the store satisfies the invariant again; for a
session whose question list is empty, the very first call has no current
question to read. -/
theorem answerQuiz_in_bounds :
    (∀ (subject : String) (qs : List IncQuestion),
        ((mkIncSession subject qs).answersGiven.length <
          (mkIncSession subject qs).questions.length ↔ qs ≠ [])) ∧
    (∀ (store : IncStore) (phone answer : String) (s : IncSession),
        store phone = some s →
        s.answersGiven.length < s.questions.length →
        (∃ finished message, (answerQuiz store phone answer).2 = .answered finished message) ∧
        ((answerQuiz store phone answer).1 phone = none ↔
          s.answersGiven.length + 1 = s.questions.length) ∧
        (∀ s', (answerQuiz store phone answer).1 phone = some s' →
          s'.answersGiven.length < s'.questions.length)) ∧
    (∀ (store : IncStore) (phone answer : String) (s : IncSession),
        store phone = some s → s.questions = [] →
        (answerQuiz store phone answer).2 = .missingQuestion) := by
  refine ⟨?_, ?_, ?_⟩
  · intro subject qs
    simp [mkIncSession, List.length_pos]
  · intro store phone answer s hs hlt
    unfold answerQuiz
    rw [hs]
    dsimp only
    rw [List.get?_eq_get hlt]
    dsimp only
    by_cases hfin : s.answersGiven.length + 1 = s.questions.length
    · rw [if_pos (by simp [hfin])]
      refine ⟨⟨true, _, rfl⟩, ?_, ?_⟩
      · simp [hfin]
      · intro s' hs'
        simp at hs'
    · rw [if_neg (by simp only [List.length_append, List.length_singleton, beq_iff_eq]; omega)]
      refine ⟨⟨false, _, rfl⟩, ?_, ?_⟩
      · simp [hfin]
      · intro s' hs'
        simp at hs'
        subst hs'
        simp only [List.length_append, List.length_singleton]
        omega
  · intro store phone answer s hs hq0
    unfold answerQuiz
    rw [hs]
    dsimp only
    rw [hq0]
    rfl

/-- Concrete incremental store: owner "p" holds a fresh one-question
session. -/
def incStoreOne : IncStore := fun p =>
  if p = "p" then
    some { subject := "Math",
           questions := [{ q := "Q1", options := [], answer := "A" }],
           answersGiven := [] }
  else none

/-- Concrete incremental store: owner "p" holds a session whose question
list is empty. -/
def incStoreNoQuestions : IncStore := fun p =>
  if p = "p" then some { subject := "Math", questions := [], answersGiven := [] } else none

/-- Witness for `answerQuiz_in_bounds`: on a fresh one-question session
the first call answers in bounds and finishes (deleting the session);
on an empty-question session the first call has no question to read. -/
theorem answerQuiz_in_bounds_witness :
    ((mkIncSession "Math" [{ q := "Q1", options := [], answer := "A" }]).answersGiven.length <
      (mkIncSession "Math" [{ q := "Q1", options := [], answer := "A" }]).questions.length ↔
      ([{ q := "Q1", options := [], answer := "A" }] : List IncQuestion) ≠ []) ∧
    (∃ finished message, (answerQuiz incStoreOne "p" "A").2 = .answered finished message) ∧
    ((answerQuiz incStoreOne "p" "A").1 "p" = none ↔ 0 + 1 = 1) ∧
    (answerQuiz incStoreNoQuestions "p" "A").2 = .missingQuestion := by
  have h1 := answerQuiz_in_bounds.1 "Math" [{ q := "Q1", options := [], answer := "A" }]
  have h2 := answerQuiz_in_bounds.2.1 incStoreOne "p" "A"
    { subject := "Math", questions := [{ q := "Q1", options := [], answer := "A" }],
      answersGiven := [] }
    (by decide) (by decide)
  have h3 := answerQuiz_in_bounds.2.2 incStoreNoQuestions "p" "A"
    { subject := "Math", questions := [], answersGiven := [] } (by decide) rfl
  exact ⟨h1, h2.1, h2.2.1, h3⟩

end MwalimuAi
